import Mathlib

/-!
Shallow embedding of `src/steam_noodles.py` (the SteamNoodles Review
Processing & Reporting Engine) and verification of the frozen claims.

Modelling conventions:
* Python strings are Lean `String`s; the Python `str` operations used by the
  source (`strip`, `lower`, `split`, substring test `in`) are re-implemented
  as structurally recursive functions over `List Char` so that every
  definition evaluates in the kernel.
* Timestamps (`datetime`) are integers counting seconds; a calendar day `d`
  (the result of parsing a `%Y-%m-%d` string, i.e. midnight) is the
  timestamp `d * 86400` where `d` is the civil day number since 1970-01-01.
  `datetime.now()` is a parameter `now : Int` (or a day/time-of-day pair).
* The external Groq service calls are oracles: `Option String`, where `none`
  models the call raising an exception and `some reply` the returned text.
* `random.randint` / `random.choice` in the sample-data generator are an
  oracle structure of index-choosing functions.
* The persistence write (`to_csv`) is an oracle `Option String`: `none`
  models a successful write, `some msg` an `Exception` with message `msg`
  (the file is then left unchanged).
* The matplotlib rendering sink is opaque: the visualization agent returns
  the grouped (date, sentiment) counts handed to the renderer (`some data`)
  or `none` (the code path that returns Python `None`).
-/

namespace SteamNoodles

/-! ## Python string primitives -/

/-- Python `str.strip()` whitespace set (ASCII cases that matter here). -/
def isPySpace (c : Char) : Bool :=
  c = ' ' || c = '\t' || c = '\n' || c = '\r' || c = '\x0b' || c = '\x0c'

/-- Python `s.strip()`. -/
def py_strip (s : String) : String :=
  ⟨((s.data.dropWhile isPySpace).reverse.dropWhile isPySpace).reverse⟩

/-- Python `s.lower()` (ASCII). -/
def py_lower (s : String) : String :=
  ⟨s.data.map Char.toLower⟩

/-- Whether `sep` occurs as a contiguous run of `l`. -/
def isInfixOfChars (sep : List Char) : List Char → Bool
  | [] => sep.isEmpty
  | c :: rest => sep.isPrefixOf (c :: rest) || isInfixOfChars sep rest

/-- Python `sub in s` substring test. -/
def py_contains (sub s : String) : Bool :=
  isInfixOfChars sub.data s.data

/-- Worker for `py_split`, fuel-indexed for structural recursion; the fuel is
always at least the length of the list so the `0` branch is unreachable. -/
def splitOnCharsAux (sep : List Char) : Nat → List Char → List Char → List (List Char)
  | _, acc, [] => [acc.reverse]
  | 0, acc, l => [acc.reverse ++ l]
  | Nat.succ n, acc, c :: rest =>
    if sep.isPrefixOf (c :: rest) then
      acc.reverse :: splitOnCharsAux sep n [] ((c :: rest).drop sep.length)
    else
      splitOnCharsAux sep n (c :: acc) rest

/-- Python `s.split(sep)` for a non-empty separator. -/
def py_split (sep s : String) : List String :=
  (splitOnCharsAux sep.data s.data.length [] s.data).map (fun l => ⟨l⟩)

/-! ## Calendar dates (`strptime(s, "%Y-%m-%d")`) -/

def isDigitChar (c : Char) : Bool := '0' ≤ c && c ≤ '9'

def digitsToNat (l : List Char) : Nat :=
  l.foldl (fun acc c => acc * 10 + (c.toNat - '0'.toNat)) 0

def isLeapYear (y : Int) : Bool :=
  (y % 4 = 0 && y % 100 ≠ 0) || y % 400 = 0

def daysInMonth (y m : Int) : Int :=
  if m = 2 then (if isLeapYear y then 29 else 28)
  else if m = 4 || m = 6 || m = 9 || m = 11 then 30
  else 31

/-- Civil day number since 1970-01-01 (standard `days_from_civil`); only
called with `0 ≤ y ≤ 9999`, `1 ≤ m ≤ 12`. -/
def days_from_civil (y m d : Int) : Int :=
  let y' := if m ≤ 2 then y - 1 else y
  let era := (if 0 ≤ y' then y' else y' - 399) / 400
  let yoe := y' - era * 400
  let doy := (153 * (m + (if 2 < m then -3 else 9)) + 2) / 5 + d - 1
  let doe := yoe * 365 + yoe / 4 - yoe / 100 + doy
  era * 146097 + doe - 719468

/-- The `datetime.strptime(s, "%Y-%m-%d")` parse, modelled after CPython's `_strptime`
(`%Y` is exactly four digits, `%m` and `%d` one or two digits, the whole
string must be consumed, and the `datetime` constructor validates the day
against the month length).  On success, the midnight timestamp in seconds. -/
def strptime_ymd (s : String) : Option Int :=
  match py_split "-" s with
  | [ys, ms, ds] =>
    if ys.data.length = 4 && ys.data.all isDigitChar &&
       (ms.data.length = 1 || ms.data.length = 2) && ms.data.all isDigitChar &&
       (ds.data.length = 1 || ds.data.length = 2) && ds.data.all isDigitChar then
      let y : Int := digitsToNat ys.data
      let m : Int := digitsToNat ms.data
      let d : Int := digitsToNat ds.data
      if 1 ≤ m && m ≤ 12 && 1 ≤ d && d ≤ daysInMonth y m then
        some (days_from_civil y m d * 86400)
      else none
    else none
  | _ => none

/-! ## Data model -/

/-- One row of `reviews_df` / `reviews.csv`. -/
structure ReviewRecord where
  review_id : Nat
  text : String
  sentiment : String
  date : Int
  response : String
deriving DecidableEq, Repr

/-- Engine state: the in-memory dataframe and the persisted file contents. -/
structure EngineState where
  reviews_df : List ReviewRecord
  file : List ReviewRecord
deriving DecidableEq, Repr

/-- What `add_review` returns: the new record dict, or an `{"error": msg}`
dict. -/
inductive SubmitResult where
  | ok (r : ReviewRecord)
  | error (msg : String)
deriving DecidableEq, Repr

/-- Outcomes of the external calls made during one `add_review`:
`classifyReply`/`generateReply` are the Groq chat completions (`none` = the
call raised), `saveErr` is the `to_csv` persistence write (`none` = success,
`some msg` = raised with message `msg`). -/
structure Oracles where
  classifyReply : Option String
  generateReply : Option String
  saveErr : Option String

/-! ## Sentiment classification and response generation -/

/-- Embedding of `analyze_sentiment` (src lines 62-88): queries the service, normalises
the reply with `.strip().lower()`, keeps it only if it is one of the three
tokens, and returns `"neutral"` on any out-of-set reply or on exception. -/
def analyze_sentiment (classifyReply : Option String) : String :=
  match classifyReply with
  | none => "neutral"
  | some reply =>
    let result := py_lower (py_strip reply)
    if result = "positive" || result = "negative" || result = "neutral" then result
    else "neutral"

/-- The `default_responses` dict of `generate_response` together with its
`.get(sentiment, "Thank you for your feedback.")` fallback. -/
def default_responses_get (sentiment : String) : String :=
  if sentiment = "positive" then
    "Thank you for your wonderful feedback! We're delighted you enjoyed your experience."
  else if sentiment = "negative" then
    "We sincerely apologize for your experience. Please contact us so we can make this right."
  else if sentiment = "neutral" then
    "Thank you for your feedback. We appreciate you taking the time to share your thoughts."
  else "Thank you for your feedback."

/-- Embedding of `generate_response` (src lines 90-112): returns the stripped service
reply, or on exception the canned per-sentiment constant. -/
def generate_response (generateReply : Option String) (sentiment : String) : String :=
  match generateReply with
  | some reply => py_strip reply
  | none => default_responses_get sentiment

/-! ## Submission pipeline (`add_review`, src lines 116-153)

The `date` argument and its pandas `to_datetime(..., format='%Y-%m-%d',
errors='raise')` parse are modelled by the parse outcome: `none` = argument
omitted (falsy), `some none` = supplied but unparseable, `some (some d)` =
supplied and parsing to civil day `d`.  `todayDay` is the civil day of
`datetime.now()`. -/

def resolve_date (dateArg : Option (Option Int)) (todayDay : Int) : Int :=
  match dateArg with
  | none => todayDay
  | some none => todayDay
  | some (some d) => d

/-- Embedding of `add_review`: validate, resolve the date, classify, generate, append to
the in-memory dataframe, persist.  A raised persistence write is caught by
the enclosing `except Exception` and returned as an error dict, after the
in-memory append has already happened. -/
def add_review (o : Oracles) (st : EngineState) (review_text : String)
    (dateArg : Option (Option Int)) (todayDay : Int) : SubmitResult × EngineState :=
  if py_strip review_text = "" then
    (.error "Review text cannot be empty", st)
  else
    let review_date := resolve_date dateArg todayDay
    let sentiment := analyze_sentiment o.classifyReply
    let response := generate_response o.generateReply sentiment
    let new_review : ReviewRecord :=
      { review_id := st.reviews_df.length + 1
        text := review_text
        sentiment := sentiment
        date := review_date * 86400
        response := response }
    let df' := st.reviews_df ++ [new_review]
    match o.saveErr with
    | none => (.ok new_review, { reviews_df := df', file := df' })
    | some msg => (.error msg, { reviews_df := df', file := st.file })

/-! ## Sample data and engine start (`__init__` / `_generate_sample_data`,
src lines 12-57) -/

def sentiments : List String := ["positive", "negative", "neutral"]
def foods : List String := ["ramen", "dumplings", "sushi", "fried rice"]
def services : List String := ["friendly", "slow", "excellent", "terrible"]

/-- The `random` module as used by `_generate_sample_data`: per loop index,
the value of `random.randint(0, 29)` and the indices drawn by the three
`random.choice` calls (`random.choice(l)` returns the element at a uniformly
chosen valid index of `l`). -/
structure SampleRand where
  dayOffset : Nat → Nat
  sentIdx : Nat → Fin 3
  foodIdx : Nat → Fin 4
  servIdx : Nat → Fin 4

/-- The review text template chosen per sentiment (src lines 42-47). -/
def sampleText (sentiment food service : String) : String :=
  if sentiment = "positive" then
    "The " ++ food ++ " was amazing! Service was " ++ service ++ "."
  else if sentiment = "negative" then
    "Terrible " ++ food ++ ". The service was " ++ service ++ "."
  else
    "The " ++ food ++ " was okay. Service was fine."

/-- One iteration of the `_generate_sample_data` loop; `nowDay` is the civil
day of `datetime.now()`, so `base_date = now - 30 days` falls on day
`nowDay - 30` and `strftime("%Y-%m-%d")` keeps day granularity. -/
def sampleRecord (rand : SampleRand) (nowDay : Int) (i : Nat) : ReviewRecord :=
  let sentiment := sentiments.getD (rand.sentIdx i).val ""
  { review_id := i + 1
    text := sampleText sentiment (foods.getD (rand.foodIdx i).val "")
      (services.getD (rand.servIdx i).val "")
    sentiment := sentiment
    date := (nowDay - 30 + (rand.dayOffset i : Int)) * 86400
    response := "Sample response to " ++ sentiment ++ " review" }

/-- Embedding of `_generate_sample_data(num_entries)`: `review_id = len(data) + 1` in the
loop, i.e. `i + 1` at iteration `i`. -/
def generate_sample_data (rand : SampleRand) (nowDay : Int) (num_entries : Nat) :
    List ReviewRecord :=
  (List.range num_entries).map (sampleRecord rand nowDay)

/-- The `__init__` branch taken when the data file does not exist: generate
10 sample records and immediately `_save_reviews()` (write-through). -/
def init_absent (rand : SampleRand) (nowDay : Int) : EngineState :=
  let df := generate_sample_data rand nowDay 10
  { reviews_df := df, file := df }

/-! ## Reporting (`sentiment_visualization_agent`, src lines 156-202) -/

/-- The date-window resolution (src lines 158-167): the two literal presets,
then any string containing `"to"` split into two `strptime`-parsed bounds,
then the 7-day default.  `none` models `strptime` raising `ValueError`
(caught by the function's `except`, which returns `None`). -/
def resolve_window (now : Int) (date_range : String) : Option (Int × Option Int) :=
  if date_range = "last 7 days" then some (now - 7 * 86400, none)
  else if date_range = "last 30 days" then some (now - 30 * 86400, none)
  else if py_contains "to" date_range then
    let parts := py_split "to" date_range
    match strptime_ymd (py_strip (parts.getD 0 "")),
          strptime_ymd (py_strip (parts.getD 1 "")) with
    | some s, some e => some (s, some e)
    | _, _ => none
  else some (now - 7 * 86400, none)

/-- The dataframe filter (src lines 169-174): keep `date >= start_date`, and
only when `end_date` is in `locals()` (the two-date form) also
`date <= end_date`. -/
def filter_window (w : Int × Option Int) (rows : List ReviewRecord) :
    List ReviewRecord :=
  let filtered := rows.filter (fun r => decide (w.1 ≤ r.date))
  match w.2 with
  | some e => filtered.filter (fun r => decide (r.date ≤ e))
  | none => filtered

/-- The `groupby(['date', 'sentiment']).size()` aggregation (src line 179): the count per
(date, sentiment) pair actually present.  This is the data handed to the
rendering sink. -/
def group_counts (rows : List ReviewRecord) : List ((Int × String) × Nat) :=
  ((rows.map (fun r => (r.date, r.sentiment))).dedup).map
    (fun k => (k, (rows.filter (fun r => decide ((r.date, r.sentiment) = k))).length))

/-- Embedding of `sentiment_visualization_agent`: resolve the window (a `ValueError` from
`strptime` is caught and yields `None`), filter, return `None` on an empty
selection, otherwise render.  The plot-file side of the `some` case is
represented by the grouped counts the chart is drawn from. -/
def sentiment_visualization_agent (rows : List ReviewRecord) (now : Int)
    (date_range : String) : Option (List ((Int × String) × Nat)) :=
  match resolve_window now date_range with
  | none => none
  | some w =>
    let filtered := filter_window w rows
    if filtered.isEmpty then none
    else some (group_counts filtered)

/-- A concrete randomness oracle (constant draws), used to evaluate the
sample-data generator on explicit inputs. -/
def randW : SampleRand := ⟨fun _ => 3, fun _ => 0, fun _ => 1, fun _ => 2⟩

/-- Ids are canonical: the record at position `i` carries id `i + 1` (a
decidable invariant used for the id-monotonicity claim). -/
def canonicalIds (l : List ReviewRecord) : Prop :=
  ∀ i : Fin l.length, (l.get i).review_id = i.val + 1

instance (l : List ReviewRecord) : Decidable (canonicalIds l) := by
  unfold canonicalIds; infer_instance

/-! ## Helper lemmas -/

lemma analyze_sentiment_mem (c : Option String) : analyze_sentiment c ∈ sentiments := by
  cases c with
  | none => simp [analyze_sentiment, sentiments]
  | some reply =>
    simp only [analyze_sentiment]
    split
    · next h =>
      rcases Bool.or_eq_true_iff.mp h with h' | h'
      · rcases Bool.or_eq_true_iff.mp h' with h'' | h''
        · simp [sentiments, of_decide_eq_true h'']
        · simp [sentiments, of_decide_eq_true h'']
      · simp [sentiments, of_decide_eq_true h']
    · simp [sentiments]

lemma default_responses_get_ne (s : String) : default_responses_get s ≠ "" := by
  unfold default_responses_get
  split_ifs <;> decide

lemma add_review_success (cR gR : Option String) (st : EngineState) (text : String)
    (dateArg : Option (Option Int)) (today : Int) (h : ¬ py_strip text = "") :
    add_review ⟨cR, gR, none⟩ st text dateArg today =
      (.ok { review_id := st.reviews_df.length + 1
             text := text
             sentiment := analyze_sentiment cR
             date := resolve_date dateArg today * 86400
             response := generate_response gR (analyze_sentiment cR) },
       { reviews_df := st.reviews_df ++
           [{ review_id := st.reviews_df.length + 1
              text := text
              sentiment := analyze_sentiment cR
              date := resolve_date dateArg today * 86400
              response := generate_response gR (analyze_sentiment cR) }]
         file := st.reviews_df ++
           [{ review_id := st.reviews_df.length + 1
              text := text
              sentiment := analyze_sentiment cR
              date := resolve_date dateArg today * 86400
              response := generate_response gR (analyze_sentiment cR) }] }) := by
  simp [add_review, h]

/-! ## Claims -/

/-- C1.  For every non-empty, non-whitespace-only input text, `add_review`
returns a record whose sentiment is one of {positive, negative, neutral},
and — whenever the generation capability fails (in particular when both
capabilities fail, `cR = gR = none`) — whose response is the non-empty
canned fallback: every capability failure is absorbed locally. -/
theorem submit_total_availability (st : EngineState) (text : String)
    (dateArg : Option (Option Int)) (today : Int) (cR gR : Option String)
    (h : py_strip text ≠ "") :
    ∃ r : ReviewRecord,
      (add_review ⟨cR, gR, none⟩ st text dateArg today).1 = .ok r ∧
      r.sentiment ∈ sentiments ∧
      (gR = none → r.response ≠ "") := by
  refine ⟨_, by rw [add_review_success cR gR st text dateArg today h], ?_, ?_⟩
  · exact analyze_sentiment_mem cR
  · intro hg
    subst hg
    exact default_responses_get_ne _

/-- Witness for C1 at a concrete input with both capabilities failing. -/
theorem submit_total_availability_witness :
    ∃ r : ReviewRecord,
      (add_review ⟨none, none, none⟩ ⟨[], []⟩ "The ramen was amazing!" none 20000).1 = .ok r ∧
      r.sentiment ∈ sentiments ∧
      ((none : Option String) = none → r.response ≠ "") :=
  submit_total_availability ⟨[], []⟩ "The ramen was amazing!" none 20000 none none (by decide)

/-- C2.  `add_review` on empty or whitespace-only text returns the
`EmptyText` error dict, creates no record, and leaves the engine state — the
in-memory store and the persisted file — unchanged. -/
theorem submit_empty_text_rejected (o : Oracles) (st : EngineState) (text : String)
    (dateArg : Option (Option Int)) (today : Int) (h : py_strip text = "") :
    add_review o st text dateArg today = (.error "Review text cannot be empty", st) := by
  simp [add_review, h]

/-- Witness for C2: both `""` and `"   "` are rejected over a non-empty
store, whose state is returned untouched. -/
theorem submit_empty_text_rejected_witness :
    add_review ⟨none, none, none⟩
        ⟨[⟨1, "t", "positive", 0, "r"⟩], [⟨1, "t", "positive", 0, "r"⟩]⟩ "" none 20000 =
      (.error "Review text cannot be empty",
       ⟨[⟨1, "t", "positive", 0, "r"⟩], [⟨1, "t", "positive", 0, "r"⟩]⟩) ∧
    add_review ⟨none, none, none⟩
        ⟨[⟨1, "t", "positive", 0, "r"⟩], [⟨1, "t", "positive", 0, "r"⟩]⟩ "   " none 20000 =
      (.error "Review text cannot be empty",
       ⟨[⟨1, "t", "positive", 0, "r"⟩], [⟨1, "t", "positive", 0, "r"⟩]⟩) :=
  ⟨submit_empty_text_rejected _ _ _ _ _ (by decide),
   submit_empty_text_rejected _ _ _ _ _ (by decide)⟩

/-- C9.  `analyze_sentiment` is a total function (the embedding of the fact
that it never raises): its value always lies in {positive, negative,
neutral}; a service failure yields `"neutral"`, and a service reply whose
normalised (`strip().lower()`) token is outside the three-element set is
coerced to `"neutral"` — it is returned as-is only when the normalised token
is exactly one of the three. -/
theorem classify_total_neutral_fallback (c : Option String) :
    analyze_sentiment c ∈ sentiments ∧
    (c = none → analyze_sentiment c = "neutral") ∧
    (∀ s : String, c = some s → py_lower (py_strip s) ∉ sentiments →
      analyze_sentiment c = "neutral") ∧
    (∀ s : String, c = some s → py_lower (py_strip s) ∈ sentiments →
      analyze_sentiment c = py_lower (py_strip s)) := by
  refine ⟨analyze_sentiment_mem c, ?_, ?_, ?_⟩
  · rintro rfl; rfl
  · rintro s rfl hout
    simp only [analyze_sentiment]
    split
    · next h =>
      exfalso
      apply hout
      rcases Bool.or_eq_true_iff.mp h with h' | h'
      · rcases Bool.or_eq_true_iff.mp h' with h'' | h''
        · simp [sentiments, of_decide_eq_true h'']
        · simp [sentiments, of_decide_eq_true h'']
      · simp [sentiments, of_decide_eq_true h']
    · rfl
  · rintro s rfl hin
    simp only [analyze_sentiment]
    split
    · rfl
    · next h =>
      exfalso
      apply h
      simp only [sentiments, List.mem_cons, List.mem_singleton] at hin
      rcases hin with h' | h' | h' | h'
      · simp [h']
      · simp [h']
      · simp [h']
      · simp at h'

/-- Witness for C9: a failing service call, an out-of-set reply, and a
categorical token that only needs normalisation. -/
theorem classify_total_neutral_fallback_witness :
    (analyze_sentiment (some " POSITIVE ") ∈ sentiments ∧
      (some " POSITIVE " = (none : Option String) → analyze_sentiment (some " POSITIVE ") = "neutral") ∧
      (∀ s : String, some " POSITIVE " = some s → py_lower (py_strip s) ∉ sentiments →
        analyze_sentiment (some " POSITIVE ") = "neutral") ∧
      (∀ s : String, some " POSITIVE " = some s → py_lower (py_strip s) ∈ sentiments →
        analyze_sentiment (some " POSITIVE ") = py_lower (py_strip s))) ∧
    analyze_sentiment none = "neutral" ∧
    analyze_sentiment (some "I am not sure") = "neutral" ∧
    analyze_sentiment (some " POSITIVE ") = "positive" :=
  ⟨classify_total_neutral_fallback (some " POSITIVE "), by decide, by decide, by decide⟩

lemma canonicalIds_append (l : List ReviewRecord) (r : ReviewRecord)
    (h : canonicalIds l) (hr : r.review_id = l.length + 1) :
    canonicalIds (l ++ [r]) := by
  intro i
  rcases Nat.lt_or_ge i.val l.length with hl | hl
  · have hg : (l ++ [r]).get i = l.get ⟨i.val, hl⟩ := by
      simp [List.get_eq_getElem, List.getElem_append_left hl]
    rw [hg]
    exact h ⟨i.val, hl⟩
  · have hi : i.val < l.length + 1 := by simpa using i.isLt
    have he : i.val = l.length := by omega
    have hg : (l ++ [r]).get i = r := by
      simp only [List.get_eq_getElem]
      exact List.getElem_concat_length l r i.val he _
    rw [hg, hr, he]

/-- C7.  Record ids are assigned as (store size at insertion time) + 1: when
the store is canonical (record `i` carries id `i + 1`, which makes ids
`1, 2, …` strictly increasing by exactly 1 from 1 on an empty store), a
successful `add_review` appends a record with id `size + 1` and keeps the
store canonical, while an `EmptyText` rejection leaves the state — hence the
next id — untouched. -/
theorem id_monotonic_assignment (o : Oracles) (st : EngineState) (text : String)
    (dateArg : Option (Option Int)) (today : Int) (hc : canonicalIds st.reviews_df) :
    (∀ (r : ReviewRecord) (st' : EngineState),
       add_review o st text dateArg today = (.ok r, st') →
       r.review_id = st.reviews_df.length + 1 ∧
       st'.reviews_df = st.reviews_df ++ [r] ∧
       canonicalIds st'.reviews_df) ∧
    (py_strip text = "" → (add_review o st text dateArg today).2 = st) := by
  obtain ⟨cR, gR, sE⟩ := o
  constructor
  · intro r st' heq
    by_cases h : py_strip text = ""
    · simp [add_review, h] at heq
    · cases sE with
      | some msg => simp [add_review, h] at heq
      | none =>
        rw [add_review_success cR gR st text dateArg today h] at heq
        injection heq with h1 h2
        injection h1 with h1
        subst h1
        subst h2
        exact ⟨rfl, rfl, canonicalIds_append _ _ hc rfl⟩
  · intro h
    simp [add_review, h]

/-- Witness for C7: on the empty store, the first successful submission gets
id `1 = [].length + 1` and the resulting store is canonical. -/
theorem id_monotonic_assignment_witness :
    (⟨1, "hello", "neutral", 1728000000, "Thank you for your feedback. We appreciate you taking the time to share your thoughts."⟩ : ReviewRecord).review_id = ([] : List ReviewRecord).length + 1 ∧
    (⟨[⟨1, "hello", "neutral", 1728000000, "Thank you for your feedback. We appreciate you taking the time to share your thoughts."⟩], [⟨1, "hello", "neutral", 1728000000, "Thank you for your feedback. We appreciate you taking the time to share your thoughts."⟩]⟩ : EngineState).reviews_df = ([] : List ReviewRecord) ++ [⟨1, "hello", "neutral", 1728000000, "Thank you for your feedback. We appreciate you taking the time to share your thoughts."⟩] ∧
    canonicalIds (⟨[⟨1, "hello", "neutral", 1728000000, "Thank you for your feedback. We appreciate you taking the time to share your thoughts."⟩], [⟨1, "hello", "neutral", 1728000000, "Thank you for your feedback. We appreciate you taking the time to share your thoughts."⟩]⟩ : EngineState).reviews_df :=
  (id_monotonic_assignment ⟨none, none, none⟩ ⟨[], []⟩ "hello" none 20000
    (by decide)).1 _ _ (by decide)

/-- C8 counterexample.  A persistence write failure during a non-empty
submission is caught inside `add_review` and returned to the caller as an
error dict (`{"error": str(e)}`) — a typed failure value distinct from the
`EmptyText` rejection — rather than propagating out of the engine; the
in-memory store already holds the new record while the file does not. -/
theorem persistence_failure_returned_counterexample :
    py_strip "hello" ≠ "" ∧
    add_review ⟨none, none, some "disk full"⟩ ⟨[], []⟩ "hello" none 20000 =
      (.error "disk full",
       ⟨[⟨1, "hello", "neutral", 1728000000, "Thank you for your feedback. We appreciate you taking the time to share your thoughts."⟩], []⟩) ∧
    (SubmitResult.error "disk full" ≠ .error "Review text cannot be empty") := by
  decide

/-- C8 amended.  `EmptyText` is not the only failure value `add_review`
returns: a persistence write failure is caught by the surrounding
`except Exception` and surfaced as an error dict carrying the exception
message, with the record already appended in memory and the persisted file
unchanged. -/
theorem persistence_failure_caught (st : EngineState) (text : String)
    (dateArg : Option (Option Int)) (today : Int) (cR gR : Option String)
    (msg : String) (h : py_strip text ≠ "") :
    ∃ r : ReviewRecord, r.review_id = st.reviews_df.length + 1 ∧
      add_review ⟨cR, gR, some msg⟩ st text dateArg today =
        (.error msg, { reviews_df := st.reviews_df ++ [r], file := st.file }) := by
  refine ⟨⟨st.reviews_df.length + 1, text, analyze_sentiment cR,
    resolve_date dateArg today * 86400, generate_response gR (analyze_sentiment cR)⟩,
    rfl, ?_⟩
  simp [add_review, h]

/-- Witness for C8's amended statement at a concrete failing write. -/
theorem persistence_failure_caught_witness :
    ∃ r : ReviewRecord, r.review_id = ([] : List ReviewRecord).length + 1 ∧
      add_review ⟨none, none, some "disk full"⟩ ⟨[], []⟩ "hello" none 20000 =
        (.error "disk full", { reviews_df := ([] : List ReviewRecord) ++ [r], file := [] }) :=
  persistence_failure_caught ⟨[], []⟩ "hello" none 20000 none none "disk full" (by decide)

/-- C3 counterexample.  `report("last 2 days")` does not resolve the window
to [now − 2 days, now]: the code only matches the two preset strings, so
`"last 2 days"` falls to the default 7-day window and a record dated 5 days
ago — strictly before now − 2 days — is selected and charted. -/
theorem last_n_days_counterexample :
    resolve_window (100 * 86400) "last 2 days" = some (100 * 86400 - 7 * 86400, none) ∧
    sentiment_visualization_agent [⟨1, "t", "positive", 95 * 86400, "r"⟩] (100 * 86400)
        "last 2 days" = some [((95 * 86400, "positive"), 1)] ∧
    (95 * 86400 : Int) < 100 * 86400 - 2 * 86400 := by
  decide

/-- C3 amended.  Only the two presets are recognized: `"last 7 days"` and
`"last 30 days"` resolve to [now − 7 days, now] and [now − 30 days, now]
respectively, while every other range string not containing `"to"` — in
particular `"last N days"` for any N outside {7, 30} — falls back to the
default 7-day window. -/
theorem last_n_days_presets_only (now : Int) (s : String)
    (h7 : s ≠ "last 7 days") (h30 : s ≠ "last 30 days")
    (hto : py_contains "to" s = false) :
    resolve_window now "last 7 days" = some (now - 7 * 86400, none) ∧
    resolve_window now "last 30 days" = some (now - 30 * 86400, none) ∧
    resolve_window now s = some (now - 7 * 86400, none) := by
  refine ⟨rfl, rfl, ?_⟩
  simp [resolve_window, h7, h30, hto]

/-- Witness for C3's amended statement at `s = "last 2 days"`. -/
theorem last_n_days_presets_only_witness :
    resolve_window 0 "last 7 days" = some (0 - 7 * 86400, none) ∧
    resolve_window 0 "last 30 days" = some (0 - 30 * 86400, none) ∧
    resolve_window 0 "last 2 days" = some (0 - 7 * 86400, none) :=
  last_n_days_presets_only 0 "last 2 days" (by decide) (by decide) (by decide)

/-- C4.  For every store, a range expression containing `"to"` in which
either of the two split parts fails the `%Y-%m-%d` parse is a hard error for
that report call: the `ValueError` is the `InvalidDateFormat` rejection
(surfaced as the `None` return), with no default-window fallback and no
chart. -/
theorem malformed_range_hard_error (rows : List ReviewRecord) (now : Int)
    (range : String) (hto : py_contains "to" range = true)
    (hbad : strptime_ymd (py_strip ((py_split "to" range).getD 0 "")) = none ∨
            strptime_ymd (py_strip ((py_split "to" range).getD 1 "")) = none) :
    sentiment_visualization_agent rows now range = none := by
  have h7 : range ≠ "last 7 days" := by rintro rfl; revert hto; decide
  have h30 : range ≠ "last 30 days" := by rintro rfl; revert hto; decide
  have key : resolve_window now range =
      match strptime_ymd (py_strip ((py_split "to" range).getD 0 "")),
            strptime_ymd (py_strip ((py_split "to" range).getD 1 "")) with
      | some s, some e => some (s, some e)
      | _, _ => none := by
    simp [resolve_window, h7, h30, hto]
  rcases hs1 : strptime_ymd (py_strip ((py_split "to" range).getD 0 "")) with _ | e1
  · rw [hs1] at key
    rcases hs2 : strptime_ymd (py_strip ((py_split "to" range).getD 1 "")) with _ | e2 <;>
      rw [hs2] at key <;> simp [sentiment_visualization_agent, key]
  · rcases hs2 : strptime_ymd (py_strip ((py_split "to" range).getD 1 "")) with _ | e2
    · rw [hs1, hs2] at key
      simp [sentiment_visualization_agent, key]
    · exfalso
      rcases hbad with h | h
      · rw [hs1] at h; exact Option.noConfusion h
      · rw [hs2] at h; exact Option.noConfusion h

/-- Witness for C4: `"2024-01-01 to 2024-13-40"` (malformed second date) is
rejected even over a store holding a record dated 2024-01-01. -/
theorem malformed_range_hard_error_witness :
    sentiment_visualization_agent [⟨1, "t", "positive", 19723 * 86400, "r"⟩] 0
      "2024-01-01 to 2024-13-40" = none :=
  malformed_range_hard_error [⟨1, "t", "positive", 19723 * 86400, "r"⟩] 0
    "2024-01-01 to 2024-13-40" (by decide) (Or.inr (by decide))

/-- C5 counterexample.  A valid explicit range matching zero records and a
malformed explicit range produce the very same return value `None`: the
no-data outcome is not distinguishable by the caller from the
`InvalidDateFormat` rejection. -/
theorem empty_range_indistinguishable_counterexample :
    resolve_window 0 "2024-01-01 to 2024-01-31" =
      some (19723 * 86400, some (19753 * 86400)) ∧
    sentiment_visualization_agent [] 0 "2024-01-01 to 2024-01-31" = none ∧
    resolve_window 0 "2024-01-01 to 2024-13-40" = none ∧
    sentiment_visualization_agent [] 0 "2024-01-01 to 2024-13-40" = none ∧
    sentiment_visualization_agent [] 0 "2024-01-01 to 2024-01-31" =
      sentiment_visualization_agent [] 0 "2024-01-01 to 2024-13-40" := by
  decide

/-- C5 amended.  A successfully resolved window whose selection is empty
yields the no-data outcome `None` rather than an empty series — but this is
the same `None` the `InvalidDateFormat` rejection produces, so the two are
not distinguishable by the caller from the return value. -/
theorem empty_selection_returns_none (rows : List ReviewRecord) (now : Int)
    (range : String) (w : Int × Option Int)
    (hw : resolve_window now range = some w)
    (hempty : filter_window w rows = []) :
    sentiment_visualization_agent rows now range = none := by
  simp [sentiment_visualization_agent, hw, hempty]

/-- Witness for C5's amended statement: a store whose single record (dated
day 19000, i.e. 2022) lies outside the window 2024-01-01 to 2024-01-31. -/
theorem empty_selection_returns_none_witness :
    sentiment_visualization_agent [⟨1, "t", "positive", 19000 * 86400, "r"⟩] 0
      "2024-01-01 to 2024-01-31" = none :=
  empty_selection_returns_none [⟨1, "t", "positive", 19000 * 86400, "r"⟩] 0
    "2024-01-01 to 2024-01-31" (19723 * 86400, some (19753 * 86400)) (by decide) (by decide)

/-- C6 counterexample.  `report("last 7 days")` does not select exactly the
records in [now − 7 days, now]: no end bound is applied in this form, so a
record dated 10 days after now — outside the claimed window — is selected
and charted. -/
theorem last7_future_record_counterexample :
    resolve_window (100 * 86400 + 1) "last 7 days" =
      some (100 * 86400 + 1 - 7 * 86400, none) ∧
    sentiment_visualization_agent [⟨1, "t", "positive", 110 * 86400, "r"⟩]
      (100 * 86400 + 1) "last 7 days" = some [((110 * 86400, "positive"), 1)] ∧
    (100 * 86400 + 1 : Int) < 110 * 86400 := by
  decide

/-- C6 amended.  With `now = n` days `+ t` seconds (0 ≤ t < 86400),
`report("last 7 days")` selects exactly the records with
`date ≥ now − 7 days`: a record dated exactly `now − 8` days is excluded and
a record dated the current day is included, but there is no upper bound, so
future-dated records are selected as well. -/
theorem last7_window_selection (rows : List ReviewRecord) (n t : Int)
    (ht0 : 0 ≤ t) (ht1 : t < 86400) :
    resolve_window (n * 86400 + t) "last 7 days" =
      some (n * 86400 + t - 7 * 86400, none) ∧
    filter_window (n * 86400 + t - 7 * 86400, none) rows =
      rows.filter (fun r => decide (n * 86400 + t - 7 * 86400 ≤ r.date)) ∧
    (∀ r ∈ rows, r.date = (n - 8) * 86400 →
      r ∉ filter_window (n * 86400 + t - 7 * 86400, none) rows) ∧
    (∀ r ∈ rows, r.date = n * 86400 →
      r ∈ filter_window (n * 86400 + t - 7 * 86400, none) rows) := by
  refine ⟨rfl, rfl, ?_, ?_⟩
  · intro r hr hd hmem
    simp only [filter_window] at hmem
    have hle : n * 86400 + t - 7 * 86400 ≤ r.date :=
      of_decide_eq_true (List.mem_filter.mp hmem).2
    rw [hd] at hle
    omega
  · intro r hr hd
    simp only [filter_window]
    refine List.mem_filter.mpr ⟨hr, decide_eq_true ?_⟩
    rw [hd]
    omega

/-- Witness for C6's amended statement: `now` = day 100 at 5 seconds past
midnight; the record dated day 92 (= now − 8 days) is excluded, the record
dated day 100 (the current day) is included. -/
theorem last7_window_selection_witness :
    (⟨1, "a", "neutral", 92 * 86400, "x"⟩ : ReviewRecord) ∉
      filter_window (100 * 86400 + 5 - 7 * 86400, none)
        [⟨1, "a", "neutral", 92 * 86400, "x"⟩, ⟨2, "b", "positive", 100 * 86400, "y"⟩] ∧
    (⟨2, "b", "positive", 100 * 86400, "y"⟩ : ReviewRecord) ∈
      filter_window (100 * 86400 + 5 - 7 * 86400, none)
        [⟨1, "a", "neutral", 92 * 86400, "x"⟩, ⟨2, "b", "positive", 100 * 86400, "y"⟩] :=
  ⟨(last7_window_selection
      [⟨1, "a", "neutral", 92 * 86400, "x"⟩, ⟨2, "b", "positive", 100 * 86400, "y"⟩]
      100 5 (by decide) (by decide)).2.2.1 _ (by decide) (by decide),
   (last7_window_selection
      [⟨1, "a", "neutral", 92 * 86400, "x"⟩, ⟨2, "b", "positive", 100 * 86400, "y"⟩]
      100 5 (by decide) (by decide)).2.2.2 _ (by decide) (by decide)⟩

lemma append_ne_empty (s t : String) (h : s.data ≠ []) : s ++ t ≠ "" := fun he =>
  h (List.append_eq_nil.mp (congrArg String.data he : s.data ++ t.data = [])).1

lemma getD_sentiments_mem : ∀ v : Fin 3, sentiments.getD v.val "" ∈ sentiments := by
  decide

lemma sampleText_ne (s f sv : String) : sampleText s f sv ≠ "" := by
  unfold sampleText
  split_ifs <;> exact append_ne_empty _ _ (List.cons_ne_nil _ _)

/-- C10.  When the data file is absent at engine start, the store is
initialised with exactly 10 generated sample records — ids 1 through 10,
each with a sentiment from the enum, non-empty text and response, and a date
within the last 30 days — and is immediately persisted; the first real
submission then receives id 11. -/
theorem fresh_engine_sample_store (rand : SampleRand) (nowDay : Int)
    (hoff : ∀ i, rand.dayOffset i ≤ 29) :
    (init_absent rand nowDay).reviews_df.length = 10 ∧
    (init_absent rand nowDay).file = (init_absent rand nowDay).reviews_df ∧
    (∀ i : Fin (init_absent rand nowDay).reviews_df.length,
      ((init_absent rand nowDay).reviews_df.get i).review_id = i.val + 1 ∧
      ((init_absent rand nowDay).reviews_df.get i).sentiment ∈ sentiments ∧
      ((init_absent rand nowDay).reviews_df.get i).text ≠ "" ∧
      ((init_absent rand nowDay).reviews_df.get i).response ≠ "" ∧
      (nowDay - 30) * 86400 ≤ ((init_absent rand nowDay).reviews_df.get i).date ∧
      ((init_absent rand nowDay).reviews_df.get i).date ≤ nowDay * 86400) ∧
    (∀ (cR gR : Option String) (text : String) (dateArg : Option (Option Int))
       (today : Int), py_strip text ≠ "" →
      ∃ r : ReviewRecord,
        (add_review ⟨cR, gR, none⟩ (init_absent rand nowDay) text dateArg today).1 = .ok r ∧
        r.review_id = 11) := by
  have hlen : (init_absent rand nowDay).reviews_df.length = 10 := by
    simp [init_absent, generate_sample_data]
  refine ⟨hlen, rfl, ?_, ?_⟩
  · intro i
    have hget : (init_absent rand nowDay).reviews_df.get i =
        sampleRecord rand nowDay i.val := by
      simp [init_absent, generate_sample_data, List.get_eq_getElem, List.getElem_map,
        List.getElem_range]
    rw [hget]
    refine ⟨rfl, getD_sentiments_mem (rand.sentIdx i.val), sampleText_ne _ _ _,
      append_ne_empty _ _ (List.cons_ne_nil _ _), ?_, ?_⟩
    · show (nowDay - 30) * 86400 ≤ (nowDay - 30 + (rand.dayOffset i.val : Int)) * 86400
      have h2 := hoff i.val
      omega
    · show (nowDay - 30 + (rand.dayOffset i.val : Int)) * 86400 ≤ nowDay * 86400
      have h2 := hoff i.val
      omega
  · intro cR gR text dateArg today h
    refine ⟨⟨(init_absent rand nowDay).reviews_df.length + 1, text, analyze_sentiment cR,
      resolve_date dateArg today * 86400, generate_response gR (analyze_sentiment cR)⟩, ?_, ?_⟩
    · rw [add_review_success cR gR _ text dateArg today h]
    · show (init_absent rand nowDay).reviews_df.length + 1 = 11
      rw [hlen]

/-- Witness for C10 with the concrete randomness oracle `randW`. -/
theorem fresh_engine_sample_store_witness :
    (init_absent randW 20000).reviews_df.length = 10 ∧
    (init_absent randW 20000).file = (init_absent randW 20000).reviews_df ∧
    ((init_absent randW 20000).reviews_df.get ⟨0, by decide⟩).review_id = 1 ∧
    ((init_absent randW 20000).reviews_df.get ⟨9, by decide⟩).review_id = 10 ∧
    (∃ r : ReviewRecord,
      (add_review ⟨none, none, none⟩ (init_absent randW 20000) "Great noodles!"
        none 20001).1 = .ok r ∧ r.review_id = 11) := by
  have h := fresh_engine_sample_store randW 20000 (fun i => by show (3 : Nat) ≤ 29; decide)
  exact ⟨h.1, h.2.1, (h.2.2.1 ⟨0, by decide⟩).1, (h.2.2.1 ⟨9, by decide⟩).1,
    h.2.2.2 none none "Great noodles!" none 20001 (by decide)⟩

end SteamNoodles
